import Mathlib

/-!
Shallow embedding of the agent session engine of GoLaunch: the
`useAcpAgent` hook (event listeners and user-facing operations) and the
prompt-submission guard of its caller `App.tsx`.  The hook's React state
becomes an explicit `EngineState`; each inbound event and user operation
becomes a function from state to state, paired with the list of outbound
`invoke` calls it issues.  Nondeterministic inputs of an operation
(generated message ids, results of awaited `invoke` calls, events that
arrive while an outbound call is in flight) are passed in explicitly.
-/

namespace GoLaunch

/-- Models JavaScript `String.prototype.trim`: drop whitespace from both
ends of the string. -/
def jsTrim (s : String) : String :=
  ⟨((s.data.dropWhile Char.isWhitespace).reverse.dropWhile Char.isWhitespace).reverse⟩

/-- Models JavaScript `s.slice(0, n)`: the first `n` characters. -/
def jsSlice (s : String) (n : Nat) : String :=
  ⟨s.data.take n⟩

/-- Models JavaScript `s.length`. -/
def jsLength (s : String) : Nat :=
  s.data.length

/-- `AgentThreadMessage` from `types.ts`, with the tool-entry fields the
hook attaches (`toolTitle`, `toolStatus`, `commandPreview`).  `role` is
one of `"user"`, `"assistant"`, `"tool"`; `toolStatus` one of
`"running"`, `"pending"`, `"approved"`, `"completed"`, `"error"`. -/
structure AgentThreadMessage where
  id : String
  role : String
  content : String
  toolTitle : Option String := none
  toolStatus : Option String := none
  commandPreview : Option String := none
deriving DecidableEq

/-- `PermissionOption` from `types.ts`. -/
structure PermissionOption where
  option_id : String
  name : String
  kind : String
deriving DecidableEq

/-- `PermissionRequest` from `types.ts`. -/
structure PermissionRequest where
  request_id : String
  session_id : String
  tool_name : String
  tool_description : Option String := none
  command_preview : Option String := none
  options : List PermissionOption := []
deriving DecidableEq

/-- `AgentStatus` from `types.ts`. -/
inductive AgentStatus where
  | disconnected
  | connecting
  | connected
  | error
deriving DecidableEq

/-- The `AgentUpdate` tagged union from `types.ts` (the payloads of the
`acp-update` events).  `plan` entries are carried but never read by the
handler, so they are elided. -/
inductive AgentUpdate where
  | message_chunk (text : String)
  | thought_chunk (text : String)
  | tool_call (id : String) (title : Option String) (kind : String)
  | tool_call_update (id : String) (title : Option String) (status : Option String)
  | plan
  | turn_complete (stop_reason : String)
  | status_change (status : AgentStatus)
deriving DecidableEq

/-- One outbound `invoke` call issued by the engine. -/
inductive OutboundCall where
  | create_conversation (title : String)
  | add_conversation_message (conversationId : String) (role : String) (content : String)
  | acp_prompt (query : String)
  | acp_cancel
  | acp_resolve_permission (requestId : String) (optionId : String)
  | get_conversation_messages (conversationId : String)
deriving DecidableEq

/-- The mutable state of `useAcpAgent`: the `useState` hooks and the two
refs (`activeAssistantIdRef`, and the active-conversation pointer).
`conversations` and `configOptions` play no part in the claims under
study and are elided. -/
structure EngineState where
  status : AgentStatus
  messages : String
  thread : List AgentThreadMessage
  thoughts : String
  isThinking : Bool
  turnActive : Bool
  permissionRequest : Option PermissionRequest
  activeAssistantId : Option String
  activeConversationId : Option String
deriving DecidableEq

/-- A persisted conversation message as returned by
`get_conversation_messages`. -/
structure StoredMessage where
  id : String
  role : String
  content : String
deriving DecidableEq

/-- Recognizes an `add_conversation_message` call with role `assistant`. -/
def isAssistantPersist : OutboundCall → Bool
  | .add_conversation_message _ role _ => role = "assistant"
  | _ => false

/-- The `acp-update` listener of `useAcpAgent` (lines 50-139): a reducer
from state and event to new state plus the outbound calls issued. -/
def handleUpdate (s : EngineState) : AgentUpdate → EngineState × List OutboundCall
  | .message_chunk text =>
    let s1 := { s with messages := s.messages ++ text, isThinking := false }
    (match s1.activeAssistantId with
     | some aid =>
       { s1 with thread := s1.thread.map fun entry =>
           if entry.id = aid then { entry with content := entry.content ++ text } else entry }
     | none => s1, [])
  | .thought_chunk text =>
    ({ s with thoughts := s.thoughts ++ text, isThinking := true }, [])
  | .tool_call id title _kind =>
    ({ s with
        isThinking := true,
        thread := s.thread ++
          [{ id := "tool-" ++ id, role := "tool", content := "",
             toolTitle := some (title.getD "Tool"), toolStatus := some "running" }] }, [])
  | .tool_call_update id title status =>
    let toolEntryId := "tool-" ++ id
    ({ s with thread := s.thread.map fun entry =>
        if entry.id = toolEntryId then
          { entry with
            toolTitle := (match title with | some t => some t | none => entry.toolTitle),
            toolStatus :=
              if status = some "Some(Complete)" then some "completed"
              else if status = some "Some(Error)" then some "error"
              else entry.toolStatus }
        else entry }, [])
  | .plan => (s, [])
  | .turn_complete _stop_reason =>
    let calls :=
      match s.activeConversationId, s.activeAssistantId with
      | some convId, some assistantId =>
        match s.thread.find? (fun m => m.id = assistantId) with
        | some assistantMsg =>
          if 0 < jsLength assistantMsg.content then
            [OutboundCall.add_conversation_message convId "assistant" assistantMsg.content]
          else []
        | none => []
      | _, _ => []
    ({ s with turnActive := false, isThinking := false, activeAssistantId := none }, calls)
  | .status_change st =>
    ({ s with status := st }, [])

/-- The `acp-permission-request` listener of `useAcpAgent` (lines
141-161): record the request and mark the matching tool entry pending,
attaching the command preview.  It issues no outbound calls. -/
def handlePermissionRequest (s : EngineState) (req : PermissionRequest) : EngineState :=
  let toolEntryId := "tool-" ++ req.request_id
  { s with
    permissionRequest := some req,
    thread := s.thread.map fun entry =>
      if entry.id = toolEntryId then
        { entry with commandPreview := req.command_preview, toolStatus := some "pending" }
      else entry }

/-- Fold a list of inbound events through `handleUpdate`, accumulating
issued calls. -/
def processUpdates (s : EngineState) (evs : List AgentUpdate) : EngineState × List OutboundCall :=
  evs.foldl (fun acc ev =>
    let r := handleUpdate acc.1 ev
    (r.1, acc.2 ++ r.2)) (s, [])

/-- The fallback content put into a still-empty assistant placeholder
when the outbound prompt call fails (line 329). -/
def promptFallback : String := "I hit an error while sending that. Please try again."

/-- The nondeterministic inputs of one `prompt` invocation: the two
generated message ids, the result of the awaited `create_conversation`
call (`none` models a rejection), whether the outbound prompt call
rejects, and the inbound updates delivered while it is in flight. -/
structure PromptEnv where
  userId : String
  assistantId : String
  createResult : Option String
  outboundRejects : Bool
  inflight : List AgentUpdate
deriving DecidableEq

/-- The `catch` block of `prompt` (lines 318-334): revert the turn to
Idle and put the fallback content into the assistant placeholder when it
is still empty. -/
def promptFailureRecovery (assistantId : String) (s : EngineState) : EngineState :=
  { s with
    turnActive := false, isThinking := false, activeAssistantId := none,
    thread := s.thread.map fun entry =>
      if entry.id = assistantId ∧ jsLength entry.content = 0 then
        { entry with content := promptFallback }
      else entry }

/-- The accepted path of `prompt` (lines 271-317): lazily create a
conversation, persist the user message, append the user message and the
empty assistant placeholder to the thread, mark the turn active, issue
the outbound prompt call, then process the updates that arrive while it
is in flight. -/
def promptAccept (normalizedQuery : String) (env : PromptEnv) (s : EngineState) :
    EngineState × List OutboundCall :=
  let title :=
    if jsLength normalizedQuery > 50 then jsSlice normalizedQuery 50 ++ "..." else normalizedQuery
  let created : Option String × EngineState × List OutboundCall :=
    match s.activeConversationId with
    | some c => (some c, s, [])
    | none =>
      match env.createResult with
      | some newId =>
        (some newId, { s with activeConversationId := some newId },
         [OutboundCall.create_conversation title])
      | none => (none, s, [OutboundCall.create_conversation title])
  let convId := created.1
  let s1 := created.2.1
  let calls1 := created.2.2
  let calls2 :=
    match convId with
    | some c => calls1 ++ [OutboundCall.add_conversation_message c "user" normalizedQuery]
    | none => calls1
  let s2 := { s1 with
    thread := s1.thread ++
      [{ id := env.userId, role := "user", content := normalizedQuery },
       { id := env.assistantId, role := "assistant", content := "" }],
    activeAssistantId := some env.assistantId,
    messages := "", thoughts := "", turnActive := true, isThinking := true }
  let calls3 := calls2 ++ [OutboundCall.acp_prompt normalizedQuery]
  let r := processUpdates s2 env.inflight
  (r.1, calls3 ++ r.2)

/-- `prompt` of `useAcpAgent` (lines 267-335): no-op on blank text, else
the accepted path, followed by the failure recovery when the outbound
call rejects. -/
def prompt (query : String) (env : PromptEnv) (s : EngineState) :
    EngineState × List OutboundCall :=
  let normalizedQuery := jsTrim query
  if normalizedQuery = "" then (s, [])
  else
    let r := promptAccept normalizedQuery env s
    if env.outboundRejects then (promptFailureRecovery env.assistantId r.1, r.2) else r

/-- `cancel` of `useAcpAgent` (lines 337-346): issue the outbound cancel
call; when it succeeds, optimistically set the turn Idle.  `success`
models whether the awaited call resolves. -/
def cancel (success : Bool) (s : EngineState) : EngineState × List OutboundCall :=
  if success then
    ({ s with turnActive := false, isThinking := false, activeAssistantId := none },
     [OutboundCall.acp_cancel])
  else (s, [OutboundCall.acp_cancel])

/-- `resolvePermission` of `useAcpAgent` (lines 358-378): issue the
outbound resolution call; on success clear the outstanding request and
mark the matching tool entry approved. -/
def resolvePermission (requestId optionId : String) (success : Bool) (s : EngineState) :
    EngineState × List OutboundCall :=
  if success then
    let toolEntryId := "tool-" ++ requestId
    ({ s with
        permissionRequest := none,
        thread := s.thread.map fun entry =>
          if entry.id = toolEntryId then { entry with toolStatus := some "approved" }
          else entry },
     [OutboundCall.acp_resolve_permission requestId optionId])
  else (s, [OutboundCall.acp_resolve_permission requestId optionId])

/-- `loadConversation` of `useAcpAgent` (lines 394-416): fetch the
stored messages (`fetched = none` models a rejected fetch), rebuild the
thread one entry per stored message, set the active-conversation
pointer, and reset all transient turn state. -/
def loadConversation (conversationId : String) (fetched : Option (List StoredMessage))
    (s : EngineState) : EngineState × List OutboundCall :=
  match fetched with
  | some msgs =>
    ({ s with
        thread := msgs.map fun m =>
          { id := m.id, role := m.role, content := m.content },
        activeConversationId := some conversationId,
        messages := "", thoughts := "", turnActive := false, isThinking := false,
        activeAssistantId := none },
     [OutboundCall.get_conversation_messages conversationId])
  | none => (s, [OutboundCall.get_conversation_messages conversationId])

/-- The Enter-key submission path of `App.tsx` (lines 248-255): invoke
`prompt` only when no turn is active and the trimmed query is
non-empty. -/
def submitPrompt (query : String) (env : PromptEnv) (s : EngineState) :
    EngineState × List OutboundCall :=
  if s.turnActive then (s, [])
  else
    let message := jsTrim query
    if jsLength message > 0 then prompt message env s
    else (s, [])

/-- Counts the observable Active-to-Idle transitions along a trace of
`turnActive` values. -/
def activeToIdleCount : List Bool → Nat
  | a :: b :: rest => (if a = true ∧ b = false then 1 else 0) + activeToIdleCount (b :: rest)
  | _ => 0

/-- A concrete idle engine state for instantiating the theorems below. -/
def idleState : EngineState :=
  { status := .connected, messages := "", thread := [], thoughts := "",
    isThinking := false, turnActive := false, permissionRequest := none,
    activeAssistantId := none, activeConversationId := none }

/-- The idle state with an active turn bound to conversation `conv0` and
assistant placeholder id `assistant-1`. -/
def activeState : EngineState :=
  { idleState with
    turnActive := true, isThinking := true,
    activeConversationId := some "conv0", activeAssistantId := some "assistant-1" }

/-- A concrete prompt environment whose outbound calls succeed. -/
def env0 : PromptEnv :=
  { userId := "user-1", assistantId := "assistant-1", createResult := some "c1",
    outboundRejects := false, inflight := [] }

/-- `env0` with the outbound prompt call rejecting. -/
def envRej : PromptEnv :=
  { env0 with outboundRejects := true }

/-- A concrete running tool entry with id `tool-t1`. -/
def toolEntryT1 : AgentThreadMessage :=
  { id := "tool-t1", role := "tool", content := "", toolTitle := some "Shell",
    toolStatus := some "running" }

/-- A concrete permission request whose id `t9` matches no tool entry in
the states it is applied to. -/
def reqT9 : PermissionRequest :=
  { request_id := "t9", session_id := "sess", tool_name := "shell",
    tool_description := none, command_preview := some "cat /tmp/x", options := [] }

/-- The idle state holding exactly the tool entry `tool-t1`. -/
def stateWithTool : EngineState :=
  { idleState with thread := [toolEntryT1] }

/-- The stored messages used to instantiate C8. -/
def storedMsgs : List StoredMessage :=
  [{ id := "m1", role := "user", content := "hello" },
   { id := "m2", role := "assistant", content := "hey" }]

/-- A mid-turn state whose assistant placeholder has accumulated
content, used to instantiate C2. -/
def completeState : EngineState :=
  { activeState with
    thread := [{ id := "assistant-1", role := "assistant", content := "Result" }] }

/-- A concrete permission request with id `t1`, matching `toolEntryT1`. -/
def reqT1 : PermissionRequest :=
  { request_id := "t1", session_id := "sess", tool_name := "shell",
    tool_description := none, command_preview := some "ls", options := [] }

/-- Mapping a function that fixes every element of a list leaves the
list unchanged. -/
theorem map_eq_self_of_mem {α : Type} {l : List α} {f : α → α}
    (h : ∀ a ∈ l, f a = a) : l.map f = l := by
  induction l with
  | nil => rfl
  | cons a t ih =>
    simp only [List.map_cons]
    rw [h a (List.mem_cons_self a t), ih fun x hx => h x (List.mem_cons_of_mem a hx)]

/-- Claim C10: handling a `permission_request` event records the new
request as the single outstanding `PermissionRequest` regardless of the
prior state — the previous outstanding request, resolved or not, is
replaced wholesale (last writer wins), so at most one request is
outstanding after any event. -/
theorem C10_permission_last_writer_wins (s : EngineState) (req : PermissionRequest) :
    (handlePermissionRequest s req).permissionRequest = some req := rfl

/-- Claim C6: a successful `resolvePermission` clears the outstanding
`PermissionRequest` and sets the matching tool entry's status to
`approved`, whatever option id (allow or deny) was chosen. -/
theorem C6_resolve_clears_and_approves (s : EngineState) (requestId optionId : String) :
    (resolvePermission requestId optionId true s).1.permissionRequest = none ∧
    ∀ i : Nat, ∀ e : AgentThreadMessage, s.thread[i]? = some e →
      (resolvePermission requestId optionId true s).1.thread[i]? =
        some (if e.id = "tool-" ++ requestId then { e with toolStatus := some "approved" }
              else e) := by
  constructor
  · simp [resolvePermission]
  · intro i e he
    simp [resolvePermission, List.getElem?_map, he]

/-- Witness for C6 at a concrete state: resolving `t1` with the deny
option clears the request and approves the tool entry. -/
theorem C6_witness :
    (resolvePermission "t1" "deny" true stateWithTool).1.permissionRequest = none ∧
    (resolvePermission "t1" "deny" true stateWithTool).1.thread[0]? =
      some { toolEntryT1 with toolStatus := some "approved" } := by
  have h := C6_resolve_clears_and_approves stateWithTool "t1" "deny"
  refine ⟨h.1, ?_⟩
  have h2 := h.2 0 toolEntryT1 (by decide)
  rw [h2]
  decide

/-- Claim C4 is false as stated: a `permission_request` whose id matches
no tool entry still changes engine state — the request is recorded as
the outstanding `PermissionRequest`.  Here the thread is empty, so no id
matches, yet the state differs afterwards. -/
theorem C4_counterexample :
    idleState.thread = [] ∧
    idleState.permissionRequest = none ∧
    (handlePermissionRequest idleState reqT9).permissionRequest = some reqT9 ∧
    handlePermissionRequest idleState reqT9 ≠ idleState := by
  refine ⟨rfl, rfl, rfl, ?_⟩
  decide

/-- Claim C4 (amended): a `permission_request` whose id matches no tool
entry leaves the thread and all other state unchanged and raises no
error, but it does record the request as the outstanding
`PermissionRequest`. -/
theorem C4_unknown_id_only_records_request (s : EngineState) (req : PermissionRequest)
    (h : ∀ e ∈ s.thread, e.id ≠ "tool-" ++ req.request_id) :
    handlePermissionRequest s req = { s with permissionRequest := some req } := by
  simp only [handlePermissionRequest]
  have hmap := map_eq_self_of_mem (l := s.thread)
    (f := fun entry =>
      if entry.id = "tool-" ++ req.request_id then
        { entry with commandPreview := req.command_preview, toolStatus := some "pending" }
      else entry)
    (fun e he => if_neg (h e he))
  rw [hmap]

/-- Witness for the amended C4 at a concrete state: request `t9` matches
no entry of the thread `[tool-t1]`; only the outstanding request
changes. -/
theorem C4_witness :
    handlePermissionRequest stateWithTool reqT9 =
      { stateWithTool with permissionRequest := some reqT9 } :=
  C4_unknown_id_only_records_request stateWithTool reqT9 (by decide)

/-- Claim C1 is false as stated: the hook's `prompt` has no
turn-active guard, so invoking it while a turn is active is not a no-op
— here it appends two thread entries and issues the user-persist and
outbound prompt calls. -/
theorem C1_counterexample :
    activeState.turnActive = true ∧
    activeState.thread = [] ∧
    (prompt "hi" env0 activeState).1.thread.length = 2 ∧
    (prompt "hi" env0 activeState).2 =
      [OutboundCall.add_conversation_message "conv0" "user" "hi",
       OutboundCall.acp_prompt "hi"] := by
  refine ⟨rfl, rfl, ?_, ?_⟩ <;> decide

/-- Claim C1 (amended): the guard against prompting during an active
turn lives at the call site, not in `prompt` itself — the Enter-key
submission path is a no-op while a turn is active, and `prompt` itself
is a no-op only on blank text. -/
theorem C1_guard_at_call_site (query : String) (env : PromptEnv) (s : EngineState)
    (h : s.turnActive = true) :
    submitPrompt query env s = (s, []) ∧
    (jsTrim query = "" → prompt query env s = (s, [])) := by
  constructor
  · simp [submitPrompt, h]
  · intro ht
    simp [prompt, ht]

/-- Witness for the amended C1 at a concrete active state. -/
theorem C1_witness :
    submitPrompt "hi" env0 activeState = (activeState, []) ∧
    (jsTrim "hi" = "" → prompt "hi" env0 activeState = (activeState, [])) :=
  C1_guard_at_call_site "hi" env0 activeState rfl

/-- Claim C5: a `tool_call_update` issues no calls; when its id matches
no thread entry the whole state is unchanged; when it matches an entry,
that entry's status follows the fixed mapping — upstream `Some(Complete)`
becomes `completed`, upstream `Some(Error)` becomes `error`, any other
token leaves the status unchanged — and every other entry is
untouched. -/
theorem C5_tool_call_update (s : EngineState) (id : String)
    (title status : Option String) :
    (handleUpdate s (.tool_call_update id title status)).2 = [] ∧
    ((∀ e ∈ s.thread, e.id ≠ "tool-" ++ id) →
      (handleUpdate s (.tool_call_update id title status)).1 = s) ∧
    (∀ i : Nat, ∀ e : AgentThreadMessage, s.thread[i]? = some e →
      (e.id ≠ "tool-" ++ id →
        (handleUpdate s (.tool_call_update id title status)).1.thread[i]? = some e) ∧
      (e.id = "tool-" ++ id →
        ∃ e2 : AgentThreadMessage,
          (handleUpdate s (.tool_call_update id title status)).1.thread[i]? = some e2 ∧
          e2.id = e.id ∧ e2.role = e.role ∧ e2.content = e.content ∧
          (status = some "Some(Complete)" → e2.toolStatus = some "completed") ∧
          (status = some "Some(Error)" → e2.toolStatus = some "error") ∧
          (status ≠ some "Some(Complete)" → status ≠ some "Some(Error)" →
            e2.toolStatus = e.toolStatus))) := by
  refine ⟨rfl, ?_, ?_⟩
  · intro h
    simp only [handleUpdate]
    have hmap := map_eq_self_of_mem (l := s.thread)
      (f := fun entry =>
        if entry.id = "tool-" ++ id then
          { entry with
            toolTitle := (match title with | some t => some t | none => entry.toolTitle),
            toolStatus :=
              if status = some "Some(Complete)" then some "completed"
              else if status = some "Some(Error)" then some "error"
              else entry.toolStatus }
        else entry)
      (fun e he => if_neg (h e he))
    rw [hmap]
  · intro i e he
    have hfe : (handleUpdate s (.tool_call_update id title status)).1.thread[i]? =
        some (if e.id = "tool-" ++ id then
          { e with
            toolTitle := (match title with | some t => some t | none => e.toolTitle),
            toolStatus :=
              if status = some "Some(Complete)" then some "completed"
              else if status = some "Some(Error)" then some "error"
              else e.toolStatus }
        else e) := by
      simp only [handleUpdate]
      simp [List.getElem?_map, he]
    constructor
    · intro hne
      rw [hfe, if_neg hne]
    · intro heq
      rw [if_pos heq] at hfe
      refine ⟨_, hfe, rfl, rfl, rfl, ?_, ?_, ?_⟩
      · intro hc
        simp [hc]
      · intro herr
        simp [herr]
      · intro h1 h2
        simp [if_neg h1, if_neg h2]

/-- Witness for C5: an update with unknown id `zz` leaves the state
unchanged, and an `Some(Error)` update for `t1` sets its status to
`error`. -/
theorem C5_witness :
    (handleUpdate stateWithTool (.tool_call_update "zz" none none)).1 = stateWithTool ∧
    ((handleUpdate stateWithTool
        (.tool_call_update "t1" none (some "Some(Error)"))).1.thread[0]?.map
      AgentThreadMessage.toolStatus) = some (some "error") := by
  constructor
  · exact (C5_tool_call_update stateWithTool "zz" none none).2.1 (by decide)
  · have h := ((C5_tool_call_update stateWithTool "t1" none
      (some "Some(Error)")).2.2 0 toolEntryT1 (by decide)).2 rfl
    obtain ⟨e2, h1, -, -, -, -, h6, -⟩ := h
    rw [h1]
    simp [h6 rfl]

/-- Claim C8: `loadConversation` rebuilds the thread one entry per
stored message in stored order with roles preserved, points the active
conversation at the loaded id, and forcibly resets every transient turn
field, whatever the prior state (also mid-turn). -/
theorem C8_load_conversation_clean_slate (s : EngineState) (cid : String)
    (msgs : List StoredMessage) (r : EngineState)
    (hr : r = (loadConversation cid (some msgs) s).1) :
    r.thread.length = msgs.length ∧
    (∀ i : Nat, ∀ m : StoredMessage, msgs[i]? = some m →
      r.thread[i]? = some { id := m.id, role := m.role, content := m.content }) ∧
    r.activeConversationId = some cid ∧
    r.turnActive = false ∧
    r.isThinking = false ∧
    r.messages = "" ∧
    r.thoughts = "" ∧
    r.activeAssistantId = none := by
  subst hr
  refine ⟨?_, ?_, rfl, rfl, rfl, rfl, rfl, rfl⟩
  · simp [loadConversation]
  · intro i m hm
    simp [loadConversation, List.getElem?_map, hm]

/-- Witness for C8: loading two stored messages over a state with an
active turn rebuilds the thread in order and leaves the turn idle. -/
theorem C8_witness :
    (loadConversation "c7" (some storedMsgs) activeState).1.thread[1]? =
      some { id := "m2", role := "assistant", content := "hey" } ∧
    (loadConversation "c7" (some storedMsgs) activeState).1.turnActive = false := by
  have h := C8_load_conversation_clean_slate activeState "c7" storedMsgs _ rfl
  exact ⟨h.2.1 1 { id := "m2", role := "assistant", content := "hey" } (by decide),
    h.2.2.2.1⟩

/-- Claim C2: one `turn_complete` makes exactly one assistant persist
call when an active conversation, an active assistant pointer, and a
found placeholder with non-empty content all exist, and zero such calls
in every other case — never more than one. -/
theorem C2_assistant_persist_count (s : EngineState) (reason : String) :
    (handleUpdate s (.turn_complete reason)).2.countP isAssistantPersist ≤ 1 ∧
    ((handleUpdate s (.turn_complete reason)).2.countP isAssistantPersist = 1 ↔
      ∃ convId assistantId m,
        s.activeConversationId = some convId ∧
        s.activeAssistantId = some assistantId ∧
        s.thread.find? (fun e => e.id = assistantId) = some m ∧
        0 < jsLength m.content) := by
  simp only [handleUpdate]
  cases hc : s.activeConversationId with
  | none => simp [hc, List.countP, List.countP.go]
  | some convId =>
    cases ha : s.activeAssistantId with
    | none => simp [hc, ha, List.countP, List.countP.go]
    | some assistantId =>
      cases hm : s.thread.find? (fun e => e.id = assistantId) with
      | none => simp [hc, ha, hm, List.countP, List.countP.go]
      | some m =>
        by_cases hlen : 0 < jsLength m.content
        · simp [hc, ha, hm, hlen, List.countP, List.countP.go, isAssistantPersist]
        · simp [hc, ha, hm, hlen, List.countP, List.countP.go]

/-- Claim C3: after a successful optimistic `cancel`, a late
`turn_complete` for the same turn is handled idempotently — exactly one
Active-to-Idle transition is observable along the trace, the late event
makes no assistant persist call, and the engine stays Idle. -/
theorem C3_cancel_then_late_turn_complete (s : EngineState) (reason : String)
    (h : s.turnActive = true) :
    activeToIdleCount
      [s.turnActive, (cancel true s).1.turnActive,
       (handleUpdate (cancel true s).1 (.turn_complete reason)).1.turnActive] = 1 ∧
    (handleUpdate (cancel true s).1 (.turn_complete reason)).2.countP isAssistantPersist = 0 ∧
    (handleUpdate (cancel true s).1 (.turn_complete reason)).1.turnActive = false := by
  have hcancel : (cancel true s).1 =
      { s with turnActive := false, isThinking := false, activeAssistantId := none } := rfl
  refine ⟨?_, ?_, ?_⟩
  · rw [h, hcancel]
    simp [handleUpdate, activeToIdleCount]
  · rw [hcancel]
    simp only [handleUpdate]
    cases hc : s.activeConversationId <;> simp [List.countP, List.countP.go]
  · rw [hcancel]
    rfl

/-- Witness for C3 at a concrete mid-turn state. -/
theorem C3_witness :
    activeToIdleCount
      [activeState.turnActive, (cancel true activeState).1.turnActive,
       (handleUpdate (cancel true activeState).1 (.turn_complete "done")).1.turnActive] = 1 ∧
    (handleUpdate (cancel true activeState).1
        (.turn_complete "done")).2.countP isAssistantPersist = 0 ∧
    (handleUpdate (cancel true activeState).1
        (.turn_complete "done")).1.turnActive = false :=
  C3_cancel_then_late_turn_complete activeState "done" rfl

/-- Claim C7: an accepted prompt with no active conversation issues, in
order, a `create_conversation` call titled with the trimmed prompt
(truncated to 50 characters plus an ellipsis when longer), an immediate
`add_conversation_message` with role `user` and the trimmed text, and
the outbound prompt call; it appends the user message and then an empty
assistant placeholder to the thread and binds the new conversation. -/
theorem C7_prompt_creates_conversation (query : String) (env : PromptEnv) (s : EngineState)
    (newId : String)
    (hq : jsTrim query ≠ "") (hc : s.activeConversationId = none)
    (hcr : env.createResult = some newId) (hre : env.outboundRejects = false)
    (hin : env.inflight = []) :
    (prompt query env s).2 =
      [OutboundCall.create_conversation
         (if jsLength (jsTrim query) > 50 then jsSlice (jsTrim query) 50 ++ "..."
          else jsTrim query),
       OutboundCall.add_conversation_message newId "user" (jsTrim query),
       OutboundCall.acp_prompt (jsTrim query)] ∧
    (prompt query env s).1.thread =
      s.thread ++
        [{ id := env.userId, role := "user", content := jsTrim query },
         { id := env.assistantId, role := "assistant", content := "" }] ∧
    (prompt query env s).1.activeConversationId = some newId := by
  refine ⟨?_, ?_, ?_⟩ <;>
    simp [prompt, promptAccept, processUpdates, hq, hc, hcr, hre, hin]

/-- Witness for C7 at the prompt `hello` over the idle state. -/
theorem C7_witness :
    (prompt "hello" env0 idleState).2 =
      [OutboundCall.create_conversation
         (if jsLength (jsTrim "hello") > 50 then jsSlice (jsTrim "hello") 50 ++ "..."
          else jsTrim "hello"),
       OutboundCall.add_conversation_message "c1" "user" (jsTrim "hello"),
       OutboundCall.acp_prompt (jsTrim "hello")] ∧
    (prompt "hello" env0 idleState).1.thread =
      idleState.thread ++
        [{ id := "user-1", role := "user", content := jsTrim "hello" },
         { id := "assistant-1", role := "assistant", content := "" }] ∧
    (prompt "hello" env0 idleState).1.activeConversationId = some "c1" :=
  C7_prompt_creates_conversation "hello" env0 idleState "c1" (by decide) rfl rfl rfl rfl

/-- Claim C9: when the outbound prompt call of an accepted prompt
rejects, the turn reverts to Idle (turn inactive, not thinking,
assistant pointer cleared), the calls already issued stand, and in the
thread reached at the point of failure the assistant placeholder gets
the literal fallback content exactly when its content is still empty,
while every other entry — and a placeholder already holding content — is
left as it was. -/
theorem C9_outbound_failure_recovery (query : String) (env : PromptEnv) (s : EngineState)
    (hq : jsTrim query ≠ "") (hre : env.outboundRejects = true) :
    (prompt query env s).1.turnActive = false ∧
    (prompt query env s).1.isThinking = false ∧
    (prompt query env s).1.activeAssistantId = none ∧
    (prompt query env s).2 = (promptAccept (jsTrim query) env s).2 ∧
    (∀ i : Nat, ∀ e : AgentThreadMessage,
      (promptAccept (jsTrim query) env s).1.thread[i]? = some e →
      (prompt query env s).1.thread[i]? =
        some (if e.id = env.assistantId ∧ jsLength e.content = 0
              then { e with content := promptFallback } else e)) := by
  have hp : prompt query env s =
      (promptFailureRecovery env.assistantId (promptAccept (jsTrim query) env s).1,
       (promptAccept (jsTrim query) env s).2) := by
    simp [prompt, hq, hre]
  rw [hp]
  refine ⟨rfl, rfl, rfl, rfl, ?_⟩
  intro i e he
  simp [promptFailureRecovery, List.getElem?_map, he]

/-- Witness for C9: the rejecting environment over the idle state leaves
the turn idle and fills the still-empty placeholder with the fallback. -/
theorem C9_witness :
    (prompt "hi" envRej idleState).1.turnActive = false ∧
    (prompt "hi" envRej idleState).1.thread[1]?.map AgentThreadMessage.content =
      some promptFallback := by
  have h := C9_outbound_failure_recovery "hi" envRej idleState (by decide) rfl
  refine ⟨h.1, ?_⟩
  have h5 := h.2.2.2.2 1 { id := "assistant-1", role := "assistant", content := "" }
    (by decide)
  rw [h5]
  decide

/-- Witness for C2: at a mid-turn state with a non-empty placeholder,
exactly one assistant persist call is made. -/
theorem C2_witness :
    (handleUpdate completeState (.turn_complete "end")).2.countP isAssistantPersist = 1 := by
  have h := C2_assistant_persist_count completeState "end"
  exact h.2.mpr ⟨"conv0", "assistant-1",
    { id := "assistant-1", role := "assistant", content := "Result" },
    rfl, rfl, by decide, by decide⟩

/-- Witness for C10: a new request over a state that already holds an
unresolved one replaces it. -/
theorem C10_witness :
    (handlePermissionRequest { idleState with permissionRequest := some reqT9 }
      reqT1).permissionRequest = some reqT1 :=
  C10_permission_last_writer_wins { idleState with permissionRequest := some reqT9 } reqT1

end GoLaunch
